import Mathlib

/-!
Shallow embedding of `src/fixed_currency_data/book.py`: a client for the
Fixer.io currency API whose four fetch operations (`get_rates`,
`get_specific_rates`, `convert_currency`, `check_supported_currencies`)
each issue one HTTP GET, parse the JSON envelope, and render a string.
The HTTP transport and JSON parser are abstracted into a `FetchOutcome`
input: either a parsed response document or a raised Python exception.
Numeric JSON values (Python floats, i.e. IEEE doubles, which are exact
rationals) are modelled as a rational value paired with the string that
Python `str()` renders for them, carried as data.
-/

attribute [local semireducible] Rat.mul Rat.add Rat.sub Rat.inv

namespace FixedCurrencyData

/-- A Python float as it appears in a parsed JSON document: its exact
numeric value (every IEEE double is a rational) together with the text
Python `str()` produces for it.  The shortest-round-trip rendering
algorithm is not re-implemented; the rendering is carried as data. -/
structure PyFloat where
  val : ℚ
  str : String
deriving DecidableEq, Repr

/-- The parsed JSON envelope, after the `data.get(...)` accesses of the
source.  `success` is the truthiness of `data.get("success", False)`;
`errorInfo` is `some s` exactly when the payload has an `error` object
with an `info` field; `base` and `date` are `none` when absent (the
source substitutes defaults "EUR" / "unknown" at use).  `rates` and
`symbols` model Python dicts: association lists in insertion order with
pairwise-distinct keys (dicts cannot hold duplicate keys; theorems that
depend on it carry the corresponding `Nodup` hypothesis).  A missing
`rates` / `symbols` key and an empty dict are both the empty list, as
`data.get("rates", \x7b\x7d)` makes them indistinguishable downstream. -/
structure ApiResponse where
  success : Bool
  errorInfo : Option String
  base : Option String
  date : Option String
  rates : List (String × PyFloat)
  symbols : List (String × String)
deriving DecidableEq, Repr

/-- A Python exception as observed by the `except` clauses of the source:
`isValueError` records whether the exception class is (a subclass of)
`ValueError` — in particular `requests.exceptions.JSONDecodeError`
subclasses `json.JSONDecodeError` which subclasses `ValueError` — and
`msg` is `str(e)`. -/
structure PyExn where
  isValueError : Bool
  msg : String
deriving DecidableEq, Repr

/-- Behaviour of `requests.get(url, timeout=...).json()` on one call:
either a parsed document or a raised exception (connection error,
timeout, malformed JSON, or any other failure inside the `try` body
before the pure formatting). -/
inductive FetchOutcome where
  | ok (data : ApiResponse)
  | exn (e : PyExn)
deriving DecidableEq, Repr

/-- Code-point lexicographic comparison of character lists, the order
Python uses on `str` (`Char.toNat` is the code point). -/
def charListLe : List Char → List Char → Bool
  | [], _ => true
  | _ :: _, [] => false
  | a :: as, b :: bs =>
      if a.toNat < b.toNat then true
      else if b.toNat < a.toNat then false
      else charListLe as bs

/-- Python string `<=`: code-point lexicographic order. -/
def strLe (a b : String) : Bool :=
  charListLe a.data b.data

/-- Order on dict items used by `sorted(d.items())`: by key.  Keys of a
dict are pairwise distinct, so the tuple comparison never reaches the
values. -/
def keyLe {α : Type} (p q : String × α) : Prop :=
  strLe p.1 q.1 = true

instance {α : Type} : DecidableRel (keyLe (α := α)) :=
  fun _ _ => inferInstanceAs (Decidable (_ = true))

/-- `sorted(d.items())` on an association list with distinct keys:
stable sort by key in code-point order. -/
def sortByKey {α : Type} (l : List (String × α)) : List (String × α) :=
  l.insertionSort keyLe

/-- Python `str.upper()` restricted to ASCII, which is all the source
feeds it (currency codes): upper-case each character. -/
def pyUpper (s : String) : String :=
  String.mk (s.data.map Char.toUpper)

/-- Truthiness test `not x` applied to `rates.get(key)`: `None` (missing
key) and the float `0.0` are falsy, every other float is truthy. -/
def floatOptFalsy : Option PyFloat → Bool
  | none => true
  | some f => f.val == 0

/-- `⌊q⌋` computed directly on the reduced fraction. -/
def ratFloor (q : ℚ) : ℤ :=
  Int.fdiv q.num q.den

/-- Round a rational to the nearest integer, ties to even — the rounding
Python `format(x, '.Nf')` applies to the exact value of the double. -/
def ratRoundHalfEven (q : ℚ) : ℤ :=
  let f := ratFloor q
  let r := q - (f : ℚ)
  if 2 * r < 1 then f
  else if 1 < 2 * r then f + 1
  else if f % 2 = 0 then f else f + 1

/-- Left-pad a numeral with zeros to the given width. -/
def padZeros (s : String) (w : ℕ) : String :=
  String.mk (List.replicate (w - s.length) '0') ++ s

/-- Python fixed-point formatting `format(x, '.precf')` on the exact
value: round half-to-even at `prec` decimal places, keep the sign of a
negative input even when the rounded magnitude is zero (Python prints
"-0.0000"). -/
def formatFixed (prec : ℕ) (q : ℚ) : String :=
  let mag : ℚ := if q < 0 then -q else q
  let n : ℤ := ratRoundHalfEven (mag * ((10 ^ prec : ℕ) : ℚ))
  let np : ℕ := n.toNat
  let ip : ℕ := np / 10 ^ prec
  let fp : ℕ := np % 10 ^ prec
  (if q < 0 then "-" else "")
    ++ toString ip
    ++ (if prec = 0 then "" else "." ++ padZeros (toString fp) prec)

/-- Is `c` one of the ASCII whitespace characters Python `float()`
strips from both ends of its argument. -/
def isPySpace (c : Char) : Bool :=
  c = ' ' || c = '\t' || c = '\n' || c = '\r' || c = '\x0b' || c = '\x0c'

def isAsciiDigit (c : Char) : Bool :=
  '0' ≤ c && c ≤ '9'

def digitsToNat (ds : List Char) : ℕ :=
  ds.foldl (fun a c => 10 * a + (c.toNat - 48)) 0

/-- Parse the exponent suffix (empty, or `e`/`E`, optional sign, one or
more digits) and apply it to the mantissa. -/
def parseExpPart (m : ℚ) : List Char → Option ℚ
  | [] => some m
  | e :: rest =>
      if e = 'e' ∨ e = 'E' then
        let (sgnNeg, ds) :=
          match rest with
          | '+' :: r => (false, r)
          | '-' :: r => (true, r)
          | r => (false, r)
        let (digits, tail) := ds.span isAsciiDigit
        if digits.isEmpty ∨ ¬ tail.isEmpty then none
        else
          let k := digitsToNat digits
          some (if sgnNeg then m / ((10 ^ k : ℕ) : ℚ) else m * ((10 ^ k : ℕ) : ℚ))
      else none

/-- Parse an unsigned float literal: `digits [. digits]` or `. digits`,
with optional exponent, consuming the whole input. -/
def parseUnsignedFloat (cs : List Char) : Option ℚ :=
  let (ip, rest) := cs.span isAsciiDigit
  match rest with
  | '.' :: rest2 =>
      let (fp, rest3) := rest2.span isAsciiDigit
      if ip.isEmpty ∧ fp.isEmpty then none
      else
        parseExpPart
          ((digitsToNat ip : ℚ) + (digitsToNat fp : ℚ) / ((10 ^ fp.length : ℕ) : ℚ))
          rest3
  | _ =>
      if ip.isEmpty then none
      else parseExpPart (digitsToNat ip : ℚ) rest

/-- Python `float(s)` on finite decimal literals: strip ASCII whitespace,
optional sign, mantissa with optional fraction and exponent.  `none`
models a raised `ValueError`.  The `inf`/`nan` spellings (not rationals)
and digit-group underscores are outside the model; no operation of the
source is specified on them. -/
def parsePyFloat (s : String) : Option ℚ :=
  let cs := ((s.data.dropWhile isPySpace).reverse.dropWhile isPySpace).reverse
  match cs with
  | '+' :: rest => parseUnsignedFloat rest
  | '-' :: rest => (parseUnsignedFloat rest).map Neg.neg
  | rest => parseUnsignedFloat rest

/-- One formatted rate entry of `get_rates` / `get_specific_rates`:
the f-string interpolation of a float uses its `str()` rendering. -/
def fmtRate (p : String × PyFloat) : String :=
  p.1 ++ ": " ++ p.2.str

/-- `FixedCurrencyDataBook.get_rates` after the GET: branch on `success`,
else render base, date and the first 10 rates of `sorted(rates.items())`,
with the trailing count `len(rates) - 10` (a Python int, so negative when
fewer than 10 rates come back).  A raised exception is caught by the
blanket `except Exception` and rendered as its message. -/
def get_rates (o : FetchOutcome) : String :=
  match o with
  | .exn e => "Error: " ++ e.msg
  | .ok data =>
      if !data.success then
        "Error: " ++ data.errorInfo.getD "API request failed"
      else
        let base := data.base.getD "EUR"
        let date := data.date.getD "unknown"
        let rates := data.rates
        let rate_list := ((sortByKey rates).take 10).map fmtRate
        "Exchange rates for " ++ base ++ " on " ++ date ++ ": "
          ++ String.intercalate ", " rate_list
          ++ " (and " ++ toString ((rates.length : ℤ) - 10)
          ++ " more currencies available)"

/-- `FixedCurrencyDataBook.get_specific_rates` after the GET: the
`currencies` argument only feeds the request URL, so the formatting
depends on the outcome alone; every rate of the response is rendered, in
dict (insertion) order, with no truncation. -/
def get_specific_rates (o : FetchOutcome) : String :=
  match o with
  | .exn e => "Error: " ++ e.msg
  | .ok data =>
      if !data.success then
        "Error: " ++ data.errorInfo.getD "API request failed"
      else
        let base := data.base.getD "EUR"
        let date := data.date.getD "unknown"
        let rates := data.rates
        let rate_list := rates.map fmtRate
        "Exchange rates for " ++ base ++ " on " ++ date ++ ": "
          ++ String.intercalate ", " rate_list

/-- `FixedCurrencyDataBook.convert_currency` after the GET.  Branch
order follows the source: `success` check, `rates.get` lookups with the
falsy test `not source_rate or not target_rate` (missing key or rate
0.0), `float(amount)` whose `ValueError` is caught by the dedicated
handler, then `target_rate / source_rate` and the f-string.  An
exception raised by the request or by `.json()` lands in the same
handlers: `except ValueError` (which `requests` JSON decode errors
subclass) before `except Exception`. -/
def convert_currency (amount source_currency target_currency : String)
    (o : FetchOutcome) : String :=
  match o with
  | .exn e =>
      if e.isValueError then
        "Error: Invalid amount '" ++ amount ++ "'. Please provide a numeric value."
      else
        "Error: " ++ e.msg
  | .ok data =>
      if !data.success then
        "Error: " ++ data.errorInfo.getD "API request failed"
      else
        let rates := data.rates
        let date := data.date.getD "unknown"
        let source_rate := rates.lookup (pyUpper source_currency)
        let target_rate := rates.lookup (pyUpper target_currency)
        if floatOptFalsy source_rate || floatOptFalsy target_rate then
          "Error: Could not find rates for " ++ source_currency
            ++ " or " ++ target_currency
        else
          match parsePyFloat amount with
          | none =>
              "Error: Invalid amount '" ++ amount
                ++ "'. Please provide a numeric value."
          | some amount_float =>
              let conversion_rate :=
                (target_rate.getD ⟨0, ""⟩).val / (source_rate.getD ⟨0, ""⟩).val
              let result := amount_float * conversion_rate
              "Converted " ++ amount ++ " " ++ pyUpper source_currency
                ++ " to " ++ formatFixed 4 result ++ " "
                ++ pyUpper target_currency
                ++ " (rate: " ++ formatFixed 6 conversion_rate ++ ") on " ++ date

/-- `FixedCurrencyDataBook.check_supported_currencies` after the GET:
branch on `success`, else render the first 20 of
`sorted(symbols.items())` under a header that carries the full symbol
count. -/
def check_supported_currencies (o : FetchOutcome) : String :=
  match o with
  | .exn e => "Error: " ++ e.msg
  | .ok data =>
      if !data.success then
        "Error: " ++ data.errorInfo.getD "API request failed"
      else
        let symbols := data.symbols
        let currency_list :=
          ((sortByKey symbols).take 20).map (fun p => p.1 ++ ": " ++ p.2)
        "Supported currencies (first 20 of " ++ toString symbols.length
          ++ " total): " ++ String.intercalate ", " currency_list

/-- The mutable state of `FixedCurrencyDataBook`: base URL and the
timeout in seconds (a Python float). -/
structure Book where
  base_url : String
  timeout : ℚ
deriving DecidableEq, Repr

/-- `FixedCurrencyDataBook.__init__`. -/
def Book.init : Book :=
  { base_url := "https://data.fixer.io/api", timeout := 30 }

/-- The `timeout` property setter: raise `ValueError("timeout must be
positive")` when the value is ≤ 0 (leaving the stored field untouched),
otherwise store the new value.  `Except.error` carries `str(e)` of the
raised exception. -/
def Book.setTimeout (b : Book) (t : ℚ) : Except String Book :=
  if t ≤ 0 then .error "timeout must be positive"
  else .ok { b with timeout := t }

/-- The timeout value every operation passes to `requests.get` as its
deadline: the stored field, read at call time. -/
def Book.requestTimeout (b : Book) : ℚ :=
  b.timeout

/-- A sample success response carrying twelve rates, for instantiating
the take-10 truncation property. -/
def okTwelveRates : ApiResponse :=
  { success := true, errorInfo := none, base := some "EUR", date := some "2025-01-01",
    rates := [("JPY", ⟨100, "100"⟩), ("AUD", ⟨2, "2"⟩), ("USD", ⟨1, "1.0"⟩),
              ("CAD", ⟨3, "3"⟩), ("GBP", ⟨4, "4"⟩), ("CHF", ⟨5, "5"⟩),
              ("NZD", ⟨6, "6"⟩), ("SEK", ⟨7, "7"⟩), ("NOK", ⟨8, "8"⟩),
              ("DKK", ⟨9, "9"⟩), ("PLN", ⟨10, "10"⟩), ("CZK", ⟨11, "11"⟩)],
    symbols := [] }

/-- A sample success response carrying twenty-one symbols, for
instantiating the take-20 truncation property. -/
def okTwentyOneSymbols : ApiResponse :=
  { success := true, errorInfo := none, base := none, date := none, rates := [],
    symbols := [("BSD", "Bahamian Dollar"), ("AED", "UAE Dirham"), ("AFN", "Afghan Afghani"),
                ("ALL", "Albanian Lek"), ("AMD", "Armenian Dram"), ("ANG", "Guilder"),
                ("AOA", "Angolan Kwanza"), ("ARS", "Argentine Peso"), ("AUD", "Australian Dollar"),
                ("AWG", "Aruban Florin"), ("AZN", "Azerbaijani Manat"), ("BAM", "Convertible Mark"),
                ("BBD", "Barbadian Dollar"), ("BDT", "Bangladeshi Taka"), ("BGN", "Bulgarian Lev"),
                ("BHD", "Bahraini Dinar"), ("BIF", "Burundian Franc"), ("BMD", "Bermudan Dollar"),
                ("BND", "Brunei Dollar"), ("BOB", "Bolivian Boliviano"), ("BRL", "Brazilian Real")] }

theorem charListLe_total : ∀ a b, charListLe a b = true ∨ charListLe b a = true
  | [], _ => Or.inl rfl
  | _ :: _, [] => Or.inr rfl
  | a :: as, b :: bs => by
      by_cases h1 : a.toNat < b.toNat
      · left; simp [charListLe, h1]
      · by_cases h2 : b.toNat < a.toNat
        · right; simp [charListLe, h2]
        · rcases charListLe_total as bs with h | h
          · left; simp [charListLe, h1, h2, h]
          · right; simp [charListLe, h1, h2, h]

theorem charListLe_trans :
    ∀ a b c, charListLe a b = true → charListLe b c = true → charListLe a c = true
  | [], _, _, _, _ => rfl
  | _ :: _, [], _, hab, _ => by simp [charListLe] at hab
  | _ :: _, _ :: _, [], _, hbc => by simp [charListLe] at hbc
  | a :: as, b :: bs, c :: cs, hab, hbc => by
      simp only [charListLe] at hab hbc ⊢
      by_cases h1 : a.toNat < b.toNat
      · by_cases h2 : b.toNat < c.toNat
        · rw [if_pos (show a.toNat < c.toNat by omega)]
        · by_cases h4 : c.toNat < b.toNat
          · rw [if_neg h2, if_pos h4] at hbc
            exact absurd hbc (by simp)
          · rw [if_pos (show a.toNat < c.toNat by omega)]
      · by_cases h3 : b.toNat < a.toNat
        · rw [if_neg h1, if_pos h3] at hab
          exact absurd hab (by simp)
        · rw [if_neg h1, if_neg h3] at hab
          by_cases h2 : b.toNat < c.toNat
          · rw [if_pos (show a.toNat < c.toNat by omega)]
          · by_cases h4 : c.toNat < b.toNat
            · rw [if_neg h2, if_pos h4] at hbc
              exact absurd hbc (by simp)
            · rw [if_neg h2, if_neg h4] at hbc
              rw [if_neg (show ¬ a.toNat < c.toNat by omega),
                if_neg (show ¬ c.toNat < a.toNat by omega)]
              exact charListLe_trans as bs cs hab hbc

instance {α : Type} : IsTotal (String × α) keyLe :=
  ⟨fun p q => charListLe_total p.1.data q.1.data⟩

instance {α : Type} : IsTrans (String × α) keyLe :=
  ⟨fun p q r' => charListLe_trans p.1.data q.1.data r'.1.data⟩

theorem sortByKey_perm {α : Type} (l : List (String × α)) : List.Perm (sortByKey l) l :=
  List.perm_insertionSort keyLe l

theorem sortByKey_sorted {α : Type} (l : List (String × α)) :
    List.Sorted keyLe (sortByKey l) :=
  List.sorted_insertionSort keyLe l

theorem toString_intCast_natCast (m : ℕ) : toString ((m : ℤ)) = toString m := rfl

theorem invalid_amount_shift (amt : String) :
    "Error: Invalid amount '" ++ amt ++ "'. Please provide a numeric value."
      = "Error: " ++ ("Invalid amount '" ++ amt ++ "'. Please provide a numeric value.") := by
  rw [show ("Error: Invalid amount '" : String) = "Error: " ++ "Invalid amount '" from rfl,
    String.append_assoc, String.append_assoc, String.append_assoc]

/-- C5: on a response whose success flag is false, `get_rates` returns
"Error: " followed by the error object's `info` field when it is
present, and "Error: API request failed" when it is absent. -/
theorem c5_get_rates_failure_message (d : ApiResponse) (h : d.success = false) :
    get_rates (.ok d) = "Error: " ++ d.errorInfo.getD "API request failed"
      ∧ (∀ i, d.errorInfo = some i → get_rates (.ok d) = "Error: " ++ i)
      ∧ (d.errorInfo = none → get_rates (.ok d) = "Error: API request failed") := by
  refine ⟨by simp [get_rates, h], fun i hi => by simp [get_rates, h, hi],
    fun hi => by simp [get_rates, h, hi]⟩

theorem c5_get_rates_failure_message_witness :
    get_rates (.ok ⟨false, some "invalid api key", none, none, [], []⟩)
        = "Error: invalid api key"
      ∧ get_rates (.ok ⟨false, none, none, none, [], []⟩) = "Error: API request failed" :=
  ⟨(c5_get_rates_failure_message ⟨false, some "invalid api key", none, none, [], []⟩
      rfl).2.1 "invalid api key" rfl,
   (c5_get_rates_failure_message ⟨false, none, none, none, [], []⟩ rfl).2.2 rfl⟩

/-- C1: each of the four fetch operations, on every raised transport or
parse exception and on every response whose success flag is false,
returns a string beginning with "Error: ".  Each operation is a total
Lean function of the fetch outcome, so no exception escapes the
operation boundary in the model. -/
theorem c1_fetch_ops_error_on_failure (e : PyExn) (d : ApiResponse)
    (amt src tgt : String) (h : d.success = false) :
    (∃ s, get_rates (.exn e) = "Error: " ++ s)
      ∧ (∃ s, get_specific_rates (.exn e) = "Error: " ++ s)
      ∧ (∃ s, convert_currency amt src tgt (.exn e) = "Error: " ++ s)
      ∧ (∃ s, check_supported_currencies (.exn e) = "Error: " ++ s)
      ∧ (∃ s, get_rates (.ok d) = "Error: " ++ s)
      ∧ (∃ s, get_specific_rates (.ok d) = "Error: " ++ s)
      ∧ (∃ s, convert_currency amt src tgt (.ok d) = "Error: " ++ s)
      ∧ (∃ s, check_supported_currencies (.ok d) = "Error: " ++ s) := by
  refine ⟨⟨e.msg, rfl⟩, ⟨e.msg, rfl⟩, ?_, ⟨e.msg, rfl⟩,
    ⟨d.errorInfo.getD "API request failed", by simp [get_rates, h]⟩,
    ⟨d.errorInfo.getD "API request failed", by simp [get_specific_rates, h]⟩,
    ⟨d.errorInfo.getD "API request failed", by simp [convert_currency, h]⟩,
    ⟨d.errorInfo.getD "API request failed", by simp [check_supported_currencies, h]⟩⟩
  by_cases hv : e.isValueError
  · exact ⟨"Invalid amount '" ++ amt ++ "'. Please provide a numeric value.",
      by simp [convert_currency, hv, invalid_amount_shift amt]⟩
  · exact ⟨e.msg, by simp [convert_currency, hv]⟩

theorem c1_fetch_ops_error_on_failure_witness :
    (∃ s, get_rates (.exn ⟨false, "Connection refused"⟩) = "Error: " ++ s)
      ∧ (∃ s, get_specific_rates (.exn ⟨false, "Connection refused"⟩) = "Error: " ++ s)
      ∧ (∃ s, convert_currency "100" "USD" "EUR" (.exn ⟨false, "Connection refused"⟩)
          = "Error: " ++ s)
      ∧ (∃ s, check_supported_currencies (.exn ⟨false, "Connection refused"⟩)
          = "Error: " ++ s)
      ∧ (∃ s, get_rates (.ok ⟨false, none, none, none, [], []⟩) = "Error: " ++ s)
      ∧ (∃ s, get_specific_rates (.ok ⟨false, none, none, none, [], []⟩) = "Error: " ++ s)
      ∧ (∃ s, convert_currency "100" "USD" "EUR" (.ok ⟨false, none, none, none, [], []⟩)
          = "Error: " ++ s)
      ∧ (∃ s, check_supported_currencies (.ok ⟨false, none, none, none, [], []⟩)
          = "Error: " ++ s) :=
  c1_fetch_ops_error_on_failure ⟨false, "Connection refused"⟩
    ⟨false, none, none, none, [], []⟩ "100" "USD" "EUR" rfl

/-- C9: in `convert_currency`, an exception of class `ValueError` raised
anywhere in the try body — such as the JSON decode error of the HTTP
library, which subclasses `ValueError` — is reported with the
invalid-amount message rather than through the generic handler, because
`except ValueError` is matched first; a non-`ValueError` exception is
reported as "Error: " plus its message. -/
theorem c9_valueerror_reported_as_invalid_amount (amt src tgt : String) (e : PyExn) :
    (e.isValueError = true →
      convert_currency amt src tgt (.exn e)
        = "Error: Invalid amount '" ++ amt ++ "'. Please provide a numeric value.")
      ∧ (e.isValueError = false →
        convert_currency amt src tgt (.exn e) = "Error: " ++ e.msg) :=
  ⟨fun hv => by simp [convert_currency, hv], fun hv => by simp [convert_currency, hv]⟩

theorem c9_valueerror_reported_as_invalid_amount_witness :
    convert_currency "100" "USD" "EUR"
        (.exn ⟨true, "Expecting value: line 1 column 1 (char 0)"⟩)
      = "Error: Invalid amount '100'. Please provide a numeric value." :=
  (c9_valueerror_reported_as_invalid_amount "100" "USD" "EUR"
    ⟨true, "Expecting value: line 1 column 1 (char 0)"⟩).1 rfl

/-- C2: on a success response carrying rates USD ↦ 1.0 and EUR ↦ 0.85
(0.85 = 17/20, exactly the value cited) and date `dt`, converting the
amount "100" from USD to EUR yields the amount echoed verbatim, the
result to 4 decimal places, and the rate to 6, whatever the other
response fields hold. -/
theorem c2_convert_hundred_usd_eur (dt : String) (einf : Option String)
    (b : Option String) (syms : List (String × String)) :
    convert_currency "100" "USD" "EUR"
        (.ok { success := true, errorInfo := einf, base := b, date := some dt,
               rates := [("USD", ⟨1, "1.0"⟩), ("EUR", ⟨17/20, "0.85"⟩)],
               symbols := syms })
      = "Converted 100 USD to 85.0000 EUR (rate: 0.850000) on " ++ dt := by
  have hf : (floatOptFalsy (List.lookup (pyUpper "USD")
        [("USD", (⟨1, "1.0"⟩ : PyFloat)), ("EUR", ⟨17/20, "0.85"⟩)])
      || floatOptFalsy (List.lookup (pyUpper "EUR")
        [("USD", (⟨1, "1.0"⟩ : PyFloat)), ("EUR", ⟨17/20, "0.85"⟩)])) = false := by decide
  have hp : parsePyFloat "100" = some (100 : ℚ) := rfl
  simp only [convert_currency, hp, hf, Bool.not_true, Bool.false_eq_true, if_false,
    Option.getD_some]
  congr 1

/-- C3: in `convert_currency` the amount check runs only after the rate
lookup: a success response with a missing or falsy rate for the
(upper-cased) source or target yields the could-not-find message no
matter what the amount is; a success response with both rates usable
and an unparseable amount yields the invalid-amount message; and a
response with success == false yields the API-failure message before
either check. -/
theorem c3_convert_check_order (amt src tgt : String) (d : ApiResponse) :
    (d.success = true →
      (floatOptFalsy (d.rates.lookup (pyUpper src))
          || floatOptFalsy (d.rates.lookup (pyUpper tgt))) = true →
      convert_currency amt src tgt (.ok d)
        = "Error: Could not find rates for " ++ src ++ " or " ++ tgt)
      ∧ (d.success = true →
        (floatOptFalsy (d.rates.lookup (pyUpper src))
            || floatOptFalsy (d.rates.lookup (pyUpper tgt))) = false →
        parsePyFloat amt = none →
        convert_currency amt src tgt (.ok d)
          = "Error: Invalid amount '" ++ amt ++ "'. Please provide a numeric value.")
      ∧ (d.success = false →
        convert_currency amt src tgt (.ok d)
          = "Error: " ++ d.errorInfo.getD "API request failed") := by
  refine ⟨fun hs hf => ?_, fun hs hf hp => ?_, fun hs => by simp [convert_currency, hs]⟩
  · simp [convert_currency, hs, hf]
  · simp [convert_currency, hs, hf, hp]

theorem c3_convert_check_order_witness :
    convert_currency "abc" "USD" "GBP"
        (.ok ⟨true, none, none, some "d", [("USD", ⟨1, "1.0"⟩)], []⟩)
      = "Error: Could not find rates for USD or GBP"
      ∧ convert_currency "abc" "USD" "EUR"
          (.ok ⟨true, none, none, some "d",
            [("USD", ⟨1, "1.0"⟩), ("EUR", ⟨17/20, "0.85"⟩)], []⟩)
        = "Error: Invalid amount 'abc'. Please provide a numeric value."
      ∧ convert_currency "abc" "USD" "EUR" (.ok ⟨false, none, none, none, [], []⟩)
        = "Error: API request failed" :=
  ⟨(c3_convert_check_order "abc" "USD" "GBP"
      ⟨true, none, none, some "d", [("USD", ⟨1, "1.0"⟩)], []⟩).1 rfl rfl,
   (c3_convert_check_order "abc" "USD" "EUR"
      ⟨true, none, none, some "d",
        [("USD", ⟨1, "1.0"⟩), ("EUR", ⟨17/20, "0.85"⟩)], []⟩).2.1 rfl rfl rfl,
   (c3_convert_check_order "abc" "USD" "EUR"
      ⟨false, none, none, none, [], []⟩).2.2 rfl⟩

/-- C10: whenever `convert_currency` on a success response gets past the
missing-rate check (its output is not the could-not-find message), the
looked-up source rate exists and is nonzero, so the division
target_rate / source_rate never divides by zero: a zero (falsy) source
rate is rejected by the check first. -/
theorem c10_division_never_by_zero (amt src tgt : String) (d : ApiResponse)
    (hs : d.success = true)
    (hne : convert_currency amt src tgt (.ok d)
      ≠ "Error: Could not find rates for " ++ src ++ " or " ++ tgt) :
    ∃ sr, d.rates.lookup (pyUpper src) = some sr ∧ sr.val ≠ 0 := by
  by_cases hf : (floatOptFalsy (d.rates.lookup (pyUpper src))
      || floatOptFalsy (d.rates.lookup (pyUpper tgt))) = true
  · exact absurd (by simp [convert_currency, hs, hf]) hne
  · simp only [Bool.or_eq_true, not_or, Bool.not_eq_true] at hf
    obtain ⟨hsrc, -⟩ := hf
    cases hlook : d.rates.lookup (pyUpper src) with
    | none => rw [hlook] at hsrc; simp [floatOptFalsy] at hsrc
    | some sr =>
        refine ⟨sr, rfl, ?_⟩
        rw [hlook] at hsrc
        simpa [floatOptFalsy] using hsrc

theorem c10_division_never_by_zero_witness :
    ∃ sr, (([("USD", ⟨1, "1.0"⟩), ("EUR", ⟨17/20, "0.85"⟩)] :
        List (String × PyFloat)).lookup (pyUpper "USD")) = some sr ∧ sr.val ≠ 0 :=
  c10_division_never_by_zero "100" "USD" "EUR"
    ⟨true, none, none, some "d", [("USD", ⟨1, "1.0"⟩), ("EUR", ⟨17/20, "0.85"⟩)], []⟩
    rfl (by decide)

/-- C4: on a success response with at least 10 rates (keys distinct, as
in a dict), `get_rates` renders exactly the first 10 entries of the
key-sorted rate list — a permutation of the response's rates, sorted
ascending by currency code — joined by ", ", with the trailing count
equal to the total number of rates minus 10. -/
theorem c4_get_rates_first_ten (d : ApiResponse) (hs : d.success = true)
    (h10 : 10 ≤ d.rates.length) (_hnd : (d.rates.map Prod.fst).Nodup) :
    get_rates (.ok d)
      = "Exchange rates for " ++ d.base.getD "EUR" ++ " on " ++ d.date.getD "unknown"
        ++ ": " ++ String.intercalate ", " (((sortByKey d.rates).take 10).map fmtRate)
        ++ " (and " ++ toString (d.rates.length - 10) ++ " more currencies available)"
      ∧ List.Perm (sortByKey d.rates) d.rates
      ∧ List.Sorted keyLe (sortByKey d.rates)
      ∧ ((sortByKey d.rates).take 10).length = 10 := by
  refine ⟨?_, sortByKey_perm _, sortByKey_sorted _, ?_⟩
  · have hz : ((d.rates.length : ℤ) - 10) = ((d.rates.length - 10 : ℕ) : ℤ) := by omega
    simp only [get_rates, hs, Bool.not_true, Bool.false_eq_true, if_false, hz,
      toString_intCast_natCast]
  · rw [List.length_take]
    have := (sortByKey_perm d.rates).length_eq
    omega

theorem c4_get_rates_first_ten_witness :
    (get_rates (.ok okTwelveRates)
      = "Exchange rates for " ++ okTwelveRates.base.getD "EUR" ++ " on "
        ++ okTwelveRates.date.getD "unknown"
        ++ ": " ++ String.intercalate ", " (((sortByKey okTwelveRates.rates).take 10).map fmtRate)
        ++ " (and " ++ toString (okTwelveRates.rates.length - 10)
        ++ " more currencies available)")
      ∧ List.Perm (sortByKey okTwelveRates.rates) okTwelveRates.rates
      ∧ List.Sorted keyLe (sortByKey okTwelveRates.rates)
      ∧ ((sortByKey okTwelveRates.rates).take 10).length = 10 :=
  c4_get_rates_first_ten okTwelveRates rfl (by decide) (by decide)

/-- C6: on a success response, `get_specific_rates` renders every rate
of the response, in the order the API returned them, with no
truncation: the rendered list has one entry per rate and contains the
entry of every rate present. -/
theorem c6_specific_rates_no_truncation (d : ApiResponse) (hs : d.success = true) :
    get_specific_rates (.ok d)
      = "Exchange rates for " ++ d.base.getD "EUR" ++ " on " ++ d.date.getD "unknown"
        ++ ": " ++ String.intercalate ", " (d.rates.map fmtRate)
      ∧ (d.rates.map fmtRate).length = d.rates.length
      ∧ ∀ p ∈ d.rates, fmtRate p ∈ d.rates.map fmtRate := by
  refine ⟨?_, List.length_map _ _, fun p hp => List.mem_map_of_mem _ hp⟩
  simp only [get_specific_rates, hs, Bool.not_true, Bool.false_eq_true, if_false]

theorem c6_specific_rates_no_truncation_witness :
    (get_specific_rates
        (.ok ⟨true, none, some "EUR", some "2025-01-01",
          [("USD", ⟨1, "1.0"⟩), ("GBP", ⟨3/4, "0.75"⟩)], []⟩)
      = "Exchange rates for " ++ (some "EUR").getD "EUR" ++ " on "
        ++ (some "2025-01-01").getD "unknown"
        ++ ": " ++ String.intercalate ", "
            ([("USD", (⟨1, "1.0"⟩ : PyFloat)), ("GBP", ⟨3/4, "0.75"⟩)].map fmtRate))
      ∧ (([("USD", (⟨1, "1.0"⟩ : PyFloat)), ("GBP", ⟨3/4, "0.75"⟩)].map fmtRate).length
          = [("USD", (⟨1, "1.0"⟩ : PyFloat)), ("GBP", ⟨3/4, "0.75"⟩)].length)
      ∧ ∀ p ∈ [("USD", (⟨1, "1.0"⟩ : PyFloat)), ("GBP", ⟨3/4, "0.75"⟩)],
          fmtRate p ∈ [("USD", (⟨1, "1.0"⟩ : PyFloat)), ("GBP", ⟨3/4, "0.75"⟩)].map fmtRate :=
  c6_specific_rates_no_truncation
    ⟨true, none, some "EUR", some "2025-01-01",
      [("USD", ⟨1, "1.0"⟩), ("GBP", ⟨3/4, "0.75"⟩)], []⟩ rfl

/-- C7: on a success response with at least 20 symbols (keys distinct,
as in a dict), `check_supported_currencies` renders exactly the first
20 entries of the key-sorted symbol list — a permutation of the
response's symbols, sorted ascending by code — joined by ", ", under a
header carrying the full symbol count. -/
theorem c7_supported_first_twenty (d : ApiResponse) (hs : d.success = true)
    (h20 : 20 ≤ d.symbols.length) (_hnd : (d.symbols.map Prod.fst).Nodup) :
    check_supported_currencies (.ok d)
      = "Supported currencies (first 20 of " ++ toString d.symbols.length ++ " total): "
        ++ String.intercalate ", "
            (((sortByKey d.symbols).take 20).map (fun p => p.1 ++ ": " ++ p.2))
      ∧ List.Perm (sortByKey d.symbols) d.symbols
      ∧ List.Sorted keyLe (sortByKey d.symbols)
      ∧ ((sortByKey d.symbols).take 20).length = 20 := by
  refine ⟨?_, sortByKey_perm _, sortByKey_sorted _, ?_⟩
  · simp only [check_supported_currencies, hs, Bool.not_true, Bool.false_eq_true, if_false]
  · rw [List.length_take]
    have := (sortByKey_perm d.symbols).length_eq
    omega

theorem c7_supported_first_twenty_witness :
    (check_supported_currencies (.ok okTwentyOneSymbols)
      = "Supported currencies (first 20 of " ++ toString okTwentyOneSymbols.symbols.length
        ++ " total): "
        ++ String.intercalate ", "
            (((sortByKey okTwentyOneSymbols.symbols).take 20).map
              (fun p => p.1 ++ ": " ++ p.2)))
      ∧ List.Perm (sortByKey okTwentyOneSymbols.symbols) okTwentyOneSymbols.symbols
      ∧ List.Sorted keyLe (sortByKey okTwentyOneSymbols.symbols)
      ∧ ((sortByKey okTwentyOneSymbols.symbols).take 20).length = 20 :=
  c7_supported_first_twenty okTwentyOneSymbols rfl (by decide) (by decide)

/-- C8: setting the timeout to any t > 0 succeeds, and the resulting
state's timeout — the value every subsequent request passes as its
deadline — is t, with the base URL untouched; setting it to any t ≤ 0
raises `ValueError("timeout must be positive")`, producing no new
state, so the previously stored timeout is retained by the caller. -/
theorem c8_timeout_setter (b : Book) (t : ℚ) :
    (0 < t → ∃ b', b.setTimeout t = .ok b' ∧ b'.timeout = t
        ∧ b'.requestTimeout = t ∧ b'.base_url = b.base_url)
      ∧ (t ≤ 0 → b.setTimeout t = .error "timeout must be positive") := by
  constructor
  · intro ht
    refine ⟨{ b with timeout := t }, ?_, rfl, rfl, rfl⟩
    simp only [Book.setTimeout, if_neg (not_le.mpr ht)]
  · intro ht
    simp only [Book.setTimeout, if_pos ht]

theorem c8_timeout_setter_witness :
    (∃ b', Book.init.setTimeout 45 = .ok b' ∧ b'.timeout = 45
        ∧ b'.requestTimeout = 45 ∧ b'.base_url = Book.init.base_url)
      ∧ Book.init.setTimeout 0 = .error "timeout must be positive" :=
  ⟨(c8_timeout_setter Book.init 45).1 (by norm_num),
   (c8_timeout_setter Book.init 0).2 le_rfl⟩

end FixedCurrencyData
